import Mathlib

/-!
Shallow embedding of the vap-dispatcher orchestration core: the credential
proxy (api-proxy module), the container manager's port pool (container-mgr
module), the rate limiter, the marketplace client's acceptance message
(vap-client), and the dispatcher core's message routing, polling, teardown
and shutdown paths (index.js).  Collections mirror the JavaScript runtime:
a `Set` is an insertion-ordered duplicate-free list, a `Map` an
insertion-ordered association list.
-/

namespace VAP

/-- JS `Set.prototype.add`: appends iff absent (insertion order preserved). -/
def setAdd (l : List Nat) (x : Nat) : List Nat :=
  if x ∈ l then l else l ++ [x]

section Assoc

variable {K V : Type} [DecidableEq K]

/-- JS `Map.prototype.get`: the binding of the key, if any. -/
def mapLookup : List (K × V) → K → Option V
  | [], _ => none
  | kv :: rest, k => if kv.1 = k then some kv.2 else mapLookup rest k

/-- JS `Map.prototype.delete`: removes the key's binding (keys are unique
in a `Map`, so filtering them all out is the same removal). -/
def mapErase (m : List (K × V)) (k : K) : List (K × V) :=
  m.filter (fun kv => decide (kv.1 ≠ k))

/-- JS `Map.prototype.set`: overwrites in place, or appends a fresh binding. -/
def mapSet (m : List (K × V)) (k : K) (v : V) : List (K × V) :=
  if (mapLookup m k).isSome then
    m.map (fun kv => if kv.1 = k then (k, v) else kv)
  else m ++ [(k, v)]

theorem mapLookup_mapErase_self (m : List (K × V)) (k : K) :
    mapLookup (mapErase m k) k = none := by
  induction m with
  | nil => rfl
  | cons kv rest ih =>
    by_cases h : kv.1 = k
    · simpa [mapErase, List.filter, h] using ih
    · simpa [mapErase, List.filter, h, mapLookup] using ih

theorem mapLookup_eq_none_iff (m : List (K × V)) (k : K) :
    mapLookup m k = none ↔ k ∉ m.map Prod.fst := by
  induction m with
  | nil => simp [mapLookup]
  | cons kv rest ih =>
    by_cases h : kv.1 = k
    · constructor
      · intro hl; simp [mapLookup, h] at hl
      · intro hm; exact absurd (by simp [h] : k ∈ (kv :: rest).map Prod.fst) hm
    · constructor
      · intro hl hm
        have hl' : mapLookup rest k = none := by simpa [mapLookup, h] using hl
        have hk : k ∈ rest.map Prod.fst := by
          rw [List.map_cons, List.mem_cons] at hm
          rcases hm with h1 | h2
          · exact absurd h1.symm h
          · exact h2
        exact (ih.mp hl') hk
      · intro hm
        have hk : k ∉ rest.map Prod.fst := fun hmem => hm (by simp [hmem])
        simpa [mapLookup, h] using ih.mpr hk

theorem mapSet_of_not_mem (m : List (K × V)) (k : K) (v : V)
    (h : k ∉ m.map Prod.fst) : mapSet m k v = m ++ [(k, v)] := by
  have : mapLookup m k = none := (mapLookup_eq_none_iff m k).mpr h
  simp [mapSet, this]

theorem map_fst_mapErase (m : List (K × V)) (k : K) :
    (mapErase m k).map Prod.fst = (m.map Prod.fst).filter (fun x => decide (x ≠ k)) := by
  induction m with
  | nil => rfl
  | cons kv rest ih =>
    by_cases h : kv.1 = k
    · simpa [mapErase, List.filter_cons, h] using ih
    · simpa [mapErase, List.filter_cons, h] using ih

theorem mapLookup_isSome_iff (m : List (K × V)) (k : K) :
    (mapLookup m k).isSome ↔ k ∈ m.map Prod.fst := by
  rcases h : mapLookup m k with _ | v
  · simpa [h] using (mapLookup_eq_none_iff m k).mp h
  · have : ¬ mapLookup m k = none := by simp [h]
    simpa [h] using (mapLookup_eq_none_iff m k).not.mp this

end Assoc

/-! ## Credential proxy (api-proxy module) -/

/-- `validTokens` entry: `token → { jobId, createdAt }`. -/
structure TokenInfo where
  jobId : String
  createdAt : Nat
deriving DecidableEq

/-- `requestCounts` entry: `token → { count, windowStart }`. -/
structure RateEntry where
  count : Nat
  windowStart : Nat
deriving DecidableEq

/-- Module state of the proxy: the two per-token registries. -/
structure ProxyState where
  validTokens : List (String × TokenInfo)
  requestCounts : List (String × RateEntry)
deriving DecidableEq

def registerToken (st : ProxyState) (token jobId : String) (now : Nat) : ProxyState :=
  { st with validTokens := mapSet st.validTokens token ⟨jobId, now⟩ }

def revokeToken (st : ProxyState) (token : String) : ProxyState :=
  { validTokens := mapErase st.validTokens token
    requestCounts := mapErase st.requestCounts token }

/-- `checkRateLimit`: note the window is anchored at `windowStart` (the first
request after the previous window expired), and the count is incremented
even on a rejected request, exactly as in the source. -/
def checkRateLimit (st : ProxyState) (token : String) (now limit : Nat) :
    Bool × ProxyState :=
  match mapLookup st.requestCounts token with
  | none => (true, { st with requestCounts := mapSet st.requestCounts token ⟨1, now⟩ })
  | some entry =>
    if 60000 < now - entry.windowStart then
      (true, { st with requestCounts := mapSet st.requestCounts token ⟨1, now⟩ })
    else
      let entry' : RateEntry := ⟨entry.count + 1, entry.windowStart⟩
      let st' := { st with requestCounts := mapSet st.requestCounts token entry' }
      if limit < entry'.count then (false, st') else (true, st')

/-- `extractToken`: `authorization` header, `Bearer `-prefixed
(`auth.startsWith('Bearer ')` then `auth.slice(7)`). -/
def extractToken (auth : Option String) : Option String :=
  let a := auth.getD ""
  if a.take 7 = "Bearer " then some (a.drop 7) else none

structure Request where
  method : String
  url : String
  auth : Option String
deriving DecidableEq

inductive Upstream where
  | openrouter
  | nvidia
deriving DecidableEq

/-- JS `String.prototype.indexOf(pat) !== -1` over the character list. -/
def hasSubstr (pat : List Char) : List Char → Bool
  | [] => pat.isEmpty
  | c :: rest => pat.isPrefixOf (c :: rest) || hasSubstr pat rest

/-- `determineUpstream`: paths containing `/embeddings/` go to OpenRouter,
everything else to NVIDIA (the path rewriting is a network-side detail). -/
def determineUpstream (path : String) : Upstream :=
  if hasSubstr "/embeddings/".data path.data then .openrouter else .nvidia

inductive ProxyOutcome where
  | ok200
  | health200 (tokens : Nat)
  | unauthorized401
  | rateLimited429
  | forward (u : Upstream)
deriving DecidableEq

/-- `handleRequest` up to the point the request is either rejected or handed
to the body-read/forward stage (`forward` means control proceeded past
authentication and rate limiting to the upstream relay). -/
def handleRequest (st : ProxyState) (req : Request) (now limit : Nat) :
    ProxyOutcome × ProxyState :=
  if req.method = "OPTIONS" then (.ok200, st)
  else if req.url = "/health" then (.health200 st.validTokens.length, st)
  else
    match extractToken req.auth with
    | none => (.unauthorized401, st)
    | some token =>
      match mapLookup st.validTokens token with
      | none => (.unauthorized401, st)
      | some _ =>
        let r := checkRateLimit st token now limit
        if r.1 then (.forward (determineUpstream req.url), r.2)
        else (.rateLimited429, r.2)

/-- Run the proxy over a timed request trace, collecting the outcomes. -/
def procTrace (limit : Nat) (st : ProxyState) :
    List (Nat × Request) → List ProxyOutcome × ProxyState
  | [] => ([], st)
  | (t, r) :: rest =>
    let step := handleRequest st r t limit
    let tail := procTrace limit step.2 rest
    (step.1 :: tail.1, tail.2)

/-! ## Container manager (container-mgr module): the port pool -/

/-- `usedPorts` entry: `port → { jobId, containerId, containerName, token, createdAt }`. -/
structure UsedInfo where
  jobId : String
  containerId : String
  containerName : String
  token : String
  createdAt : Nat
deriving DecidableEq

/-- Module state: `freePorts` and `cooldownPorts` are JS `Set`s
(insertion-ordered lists), `usedPorts` a JS `Map`. -/
structure PoolState where
  freePorts : List Nat
  usedPorts : List (Nat × UsedInfo)
  cooldownPorts : List Nat
deriving DecidableEq

/-- The pool as initialised at module load: `for (p = start; p <= end; p++) freePorts.add(p)`. -/
def initPool (lo hi : Nat) : PoolState :=
  { freePorts := List.range' lo (hi + 1 - lo), usedPorts := [], cooldownPorts := [] }

/-- `getAvailablePort`: first port in the `freePorts` iteration order that is
not in cooldown (JS `Set` iteration is insertion order). -/
def getAvailablePort (s : PoolState) : Option Nat :=
  s.freePorts.find? (fun p => decide (p ∉ s.cooldownPorts))

/-- What `startContainer` returns on success. -/
structure StartResult where
  port : Nat
  containerId : String
  token : String
deriving DecidableEq

/-- `startContainer`: allocate a port; on a successful `docker run` (modelled
by `execOk`, with the fresh `containerId`/`token` supplied as inputs since
they come from the runtime and the RNG), move the port from `freePorts`
into `usedPorts`.  On failure nothing is mutated. -/
def startContainer (s : PoolState) (jobId cid tok : String) (now : Nat)
    (execOk : Bool) : Option StartResult × PoolState :=
  match getAvailablePort s with
  | none => (none, s)
  | some port =>
    if execOk then
      (some ⟨port, cid, tok⟩,
        { s with
            freePorts := s.freePorts.erase port
            usedPorts := mapSet s.usedPorts port
              ⟨jobId, cid, "ari2-" ++ jobId.take 8, tok, now⟩ })
    else (none, s)

/-- External calls a state transition issues, in program order. -/
inductive Action where
  | sendChat (jobId msg : String)
  | logUser (jobId nonce : String)
  | logAssistant (jobId nonce : String)
  | logEvent (jobId eventType : String) (nonce : Option String)
  | revokeTokenCall (token : String)
  | dockerStop (containerName : String)
  | acceptJobCall (jobId : String)
  | joinRoom (jobId : String)
  | proxyStopCall
  | processQueueCall
deriving DecidableEq

/-- `destroyContainer`: stop/remove the container (the `docker stop` call is
recorded as an action), delete the port from `usedPorts` and put it into
cooldown; the scheduled `setTimeout` return to `freePorts` is the separate
transition `cooldownExpire`. -/
def destroyContainer (s : PoolState) (port : Nat) : PoolState × List Action :=
  match mapLookup s.usedPorts port with
  | none => (s, [])
  | some info =>
    ({ s with
        usedPorts := mapErase s.usedPorts port
        cooldownPorts := setAdd s.cooldownPorts port },
      [Action.dockerStop info.containerName])

/-- The cooldown timer firing for `port`: `cooldownPorts.delete(port);
freePorts.add(port)`.  A timer exists only for a port placed in cooldown. -/
def cooldownExpire (s : PoolState) (port : Nat) : PoolState :=
  { s with
      cooldownPorts := s.cooldownPorts.erase port
      freePorts := setAdd s.freePorts port }

def getPortForJob (s : PoolState) (jobId : String) : Option Nat :=
  (s.usedPorts.find? (fun kv => decide (kv.2.jobId = jobId))).map Prod.fst

def getActiveContainerCount (s : PoolState) : Nat :=
  s.usedPorts.length

/-- One mutation of the port-pool state, as performed by the module's
operations. -/
inductive PoolStep : PoolState → PoolState → Prop
  | start (s : PoolState) (jobId cid tok : String) (now : Nat) (execOk : Bool) :
      PoolStep s (startContainer s jobId cid tok now execOk).2
  | destroy (s : PoolState) (port : Nat) :
      PoolStep s (destroyContainer s port).1
  | expire (s : PoolState) (port : Nat) (h : port ∈ s.cooldownPorts) :
      PoolStep s (cooldownExpire s port)

/-- All ports held by the three pools, with multiplicity. -/
def portList (s : PoolState) : List Nat :=
  s.freePorts ++ s.usedPorts.map Prod.fst ++ s.cooldownPorts

/-- The pool invariant: the three pools together hold exactly the configured
range, each port exactly once (so they are pairwise disjoint). -/
def poolInv (lo hi : Nat) (s : PoolState) : Prop :=
  List.Perm (portList s) (List.range' lo (hi + 1 - lo))

instance (lo hi : Nat) (s : PoolState) : Decidable (poolInv lo hi s) :=
  inferInstanceAs (Decidable (List.Perm _ _))

theorem mem_of_mapLookup_eq_some {K V : Type} [DecidableEq K]
    {m : List (K × V)} {k : K} {v : V}
    (h : mapLookup m k = some v) : k ∈ m.map Prod.fst := by
  by_contra hk
  rw [(mapLookup_eq_none_iff m k).mpr hk] at h
  exact Option.noConfusion h

theorem filter_ne_eq_erase (l : List Nat) (a : Nat) (hnd : l.Nodup) :
    l.filter (fun x => decide (x ≠ a)) = l.erase a := by
  rw [hnd.erase_eq_filter a]
  apply List.filter_congr
  intro x _
  rw [Bool.eq_iff_iff]
  simp

theorem perm_free_to_used (a : Nat) (l1 l2 l3 : List Nat) (h : a ∈ l1) :
    List.Perm ((l1.erase a ++ (l2 ++ [a])) ++ l3) ((l1 ++ l2) ++ l3) := by
  refine List.Perm.append_right l3 ?_
  have h1 : List.Perm (l1.erase a ++ (l2 ++ [a])) (l1.erase a ++ (a :: l2)) :=
    (List.perm_append_singleton a l2).append_left _
  have h2 : List.Perm (l1.erase a ++ (a :: l2)) (a :: (l1.erase a ++ l2)) :=
    List.perm_middle
  have h3 : List.Perm (l1 ++ l2) (a :: (l1.erase a ++ l2)) :=
    (List.perm_cons_erase h).append_right l2
  exact (h1.trans h2).trans h3.symm

theorem perm_used_to_cooldown (a : Nat) (l1 l2 l3 : List Nat) (h : a ∈ l2) :
    List.Perm ((l1 ++ l2.erase a) ++ (l3 ++ [a])) ((l1 ++ l2) ++ l3) := by
  have h1 : List.Perm ((l1 ++ l2.erase a) ++ (l3 ++ [a]))
      ((l1 ++ l2.erase a) ++ (a :: l3)) :=
    (List.perm_append_singleton a l3).append_left _
  have h2 : List.Perm ((l1 ++ l2.erase a) ++ (a :: l3))
      (a :: ((l1 ++ l2.erase a) ++ l3)) :=
    List.perm_middle
  have h3 : List.Perm ((l1 ++ l2) ++ l3) (a :: ((l1 ++ l2.erase a) ++ l3)) := by
    have hmid : List.Perm (l1 ++ l2) (a :: (l1 ++ l2.erase a)) :=
      ((List.perm_cons_erase h).append_left l1).trans List.perm_middle
    exact hmid.append_right l3
  exact (h1.trans h2).trans h3.symm

theorem perm_cooldown_to_free (a : Nat) (l1 l2 l3 : List Nat) (h : a ∈ l3) :
    List.Perm (((l1 ++ [a]) ++ l2) ++ l3.erase a) ((l1 ++ l2) ++ l3) := by
  have h1 : List.Perm (((l1 ++ [a]) ++ l2) ++ l3.erase a)
      (((a :: l1) ++ l2) ++ l3.erase a) :=
    ((List.perm_append_singleton a l1).append_right l2).append_right _
  have h2 : List.Perm ((l1 ++ l2) ++ l3) (a :: ((l1 ++ l2) ++ l3.erase a)) := by
    have : List.Perm ((l1 ++ l2) ++ l3) ((l1 ++ l2) ++ (a :: l3.erase a)) :=
      (List.perm_cons_erase h).append_left _
    exact this.trans List.perm_middle
  exact h1.trans h2.symm

/-- The three pools are pairwise disjoint at any state satisfying the
invariant (the nodup of the concatenation splits into disjointness). -/
theorem poolInv_nodup (lo hi : Nat) (s : PoolState) (hinv : poolInv lo hi s) :
    (portList s).Nodup :=
  hinv.nodup_iff.mpr (List.nodup_range' lo (hi + 1 - lo))

theorem poolStep_preserves (lo hi : Nat) (s s' : PoolState)
    (hinv : poolInv lo hi s) (hstep : PoolStep s s') : poolInv lo hi s' := by
  have hnd : (portList s).Nodup := poolInv_nodup lo hi s hinv
  have hsplit := List.nodup_append.mp hnd
  have hsplit2 := List.nodup_append.mp hsplit.1
  cases hstep with
  | start jobId cid tok now execOk =>
    rcases hav : getAvailablePort s with _ | port
    · simpa [startContainer, hav] using hinv
    · by_cases hexec : execOk
      · have hfind := hav
        unfold getAvailablePort at hfind
        have hp : port ∈ s.freePorts := List.mem_of_find?_eq_some hfind
        have hnotused : port ∉ s.usedPorts.map Prod.fst := fun hmem =>
          hsplit2.2.2 hp hmem
        have hset : mapSet s.usedPorts port
            ⟨jobId, cid, "ari2-" ++ jobId.take 8, tok, now⟩ =
            s.usedPorts ++ [(port, ⟨jobId, cid, "ari2-" ++ jobId.take 8, tok, now⟩)] :=
          mapSet_of_not_mem _ _ _ hnotused
        have hgoal : List.Perm
            (portList (startContainer s jobId cid tok now execOk).2)
            (portList s) := by
          simp only [startContainer, hav, hexec, if_true, portList, hset,
            List.map_append, List.map_cons, List.map_nil]
          exact perm_free_to_used port s.freePorts (s.usedPorts.map Prod.fst)
            s.cooldownPorts hp
        exact hgoal.trans hinv
      · simpa [startContainer, hav, hexec] using hinv
  | destroy port =>
    rcases hlk : mapLookup s.usedPorts port with _ | info
    · simpa [destroyContainer, hlk] using hinv
    · have hpk : port ∈ s.usedPorts.map Prod.fst := mem_of_mapLookup_eq_some hlk
      have hnotcd : port ∉ s.cooldownPorts := fun hmem =>
        hsplit.2.2 (List.mem_append_right s.freePorts hpk) hmem
      have herase : (mapErase s.usedPorts port).map Prod.fst =
          (s.usedPorts.map Prod.fst).erase port := by
        rw [map_fst_mapErase]
        exact filter_ne_eq_erase _ _ hsplit2.2.1
      have hgoal : List.Perm (portList (destroyContainer s port).1) (portList s) := by
        simp only [destroyContainer, hlk, portList, herase, setAdd, if_neg hnotcd]
        exact perm_used_to_cooldown port s.freePorts (s.usedPorts.map Prod.fst)
          s.cooldownPorts hpk
      exact hgoal.trans hinv
  | expire port h =>
    have hnotfree : port ∉ s.freePorts := fun hmem =>
      hsplit.2.2 (List.mem_append_left _ hmem) h
    have hgoal : List.Perm (portList (cooldownExpire s port)) (portList s) := by
      simp only [cooldownExpire, portList, setAdd, if_neg hnotfree]
      exact perm_cooldown_to_free port s.freePorts (s.usedPorts.map Prod.fst)
        s.cooldownPorts h
    exact hgoal.trans hinv

/-- A prefix decomposition for `List.find?`: everything listed before the
hit fails the predicate. -/
theorem find?_prefix {p : Nat → Bool} {l : List Nat} {a : Nat}
    (h : l.find? p = some a) :
    ∃ l1 l2, l = l1 ++ a :: l2 ∧ (∀ x ∈ l1, p x = false) := by
  induction l with
  | nil => cases h
  | cons b rest ih =>
    by_cases hb : p b
    · rw [List.find?_cons_of_pos _ hb] at h
      cases h
      exact ⟨[], rest, rfl, by simp⟩
    · rw [List.find?_cons_of_neg _ (by simpa using hb)] at h
      obtain ⟨l1, l2, heq, hall⟩ := ih h
      refine ⟨b :: l1, l2, by rw [heq]; rfl, ?_⟩
      intro x hx
      rcases List.mem_cons.mp hx with hxb | hxl
      · subst hxb; simpa using hb
      · exact hall x hxl

/-- C2: the three port sets `free`, `inUse` (keys of `usedPorts`) and
`cooldown` hold the configured range `[lo, hi]` exactly once between them
— so they are pairwise disjoint and their union is the range — initially
and after every `startContainer` / `destroyContainer` / cooldown-expiry
transition. -/
theorem port_pool_partition_invariant (lo hi : Nat) (hlohi : lo ≤ hi) :
    poolInv lo hi (initPool lo hi) ∧
    (∀ s s', poolInv lo hi s → PoolStep s s' → poolInv lo hi s') ∧
    (∀ s, poolInv lo hi s →
      (s.freePorts.Disjoint (s.usedPorts.map Prod.fst) ∧
       s.freePorts.Disjoint s.cooldownPorts ∧
       (s.usedPorts.map Prod.fst).Disjoint s.cooldownPorts) ∧
      (∀ p, (p ∈ s.freePorts ∨ p ∈ s.usedPorts.map Prod.fst ∨ p ∈ s.cooldownPorts) ↔
        (lo ≤ p ∧ p ≤ hi))) := by
  refine ⟨?_, fun s s' => poolStep_preserves lo hi s s', fun s hinv => ⟨?_, ?_⟩⟩
  · simp [poolInv, initPool, portList]
  · have hnd : (portList s).Nodup := poolInv_nodup lo hi s hinv
    have hsplit := List.nodup_append.mp hnd
    have hsplit2 := List.nodup_append.mp hsplit.1
    refine ⟨hsplit2.2.2, ?_, ?_⟩
    · exact fun a ha hc => hsplit.2.2 (List.mem_append_left _ ha) hc
    · exact fun a ha hc => hsplit.2.2 (List.mem_append_right _ ha) hc
  · intro p
    have hiff : p ∈ portList s ↔
        (p ∈ s.freePorts ∨ p ∈ s.usedPorts.map Prod.fst ∨ p ∈ s.cooldownPorts) := by
      simp [portList, List.mem_append, or_assoc]
    have hmem := hinv.mem_iff (a := p)
    rw [← hiff, hmem, List.mem_range'_1]
    omega

/-- Witness for C2: the invariant holds after a concrete start transition
from the configured default range. -/
theorem port_pool_partition_invariant_witness :
    poolInv 19001 19010 ((startContainer (initPool 19001 19010) "job-1" "c1" "t1" 0 true).2) :=
  (port_pool_partition_invariant 19001 19010 (by decide)).2.1 _ _ (by decide)
    (PoolStep.start _ "job-1" "c1" "t1" 0 true)

/-- C8 counterexample: after one allocate/release/expire cycle on the range
`[8100, 8101]`, both ports are free and none is in cooldown, yet
`getAvailablePort` picks `8101`, not the numerically lowest free port
`8100` (JS `Set` iteration is insertion order, and `8100` was re-inserted
after `8101`). -/
theorem getAvailablePort_not_lowest :
    getAvailablePort
        (cooldownExpire
          ((destroyContainer
            ((startContainer (initPool 8100 8101) "job-aaaa" "c1" "t1" 0 true).2)
            8100).1)
          8100) = some 8101 ∧
    8100 ∈ (cooldownExpire
        ((destroyContainer
          ((startContainer (initPool 8100 8101) "job-aaaa" "c1" "t1" 0 true).2)
          8100).1)
        8100).freePorts ∧
    8100 ∉ (cooldownExpire
        ((destroyContainer
          ((startContainer (initPool 8100 8101) "job-aaaa" "c1" "t1" 0 true).2)
          8100).1)
        8100).cooldownPorts ∧
    8100 < 8101 := by decide

/-- C8 as amended: `getAvailablePort` returns the first port in the
`freePorts` insertion order that is not in cooldown (every free port listed
before it is in cooldown) — the numerically lowest only while insertion
order is ascending — and when every free port is in cooldown (in particular
when none is free) it returns `none` and `startContainer` returns `null`. -/
theorem getAvailablePort_first_fit (s : PoolState) (jobId cid tok : String)
    (now : Nat) (execOk : Bool) :
    (∀ p, getAvailablePort s = some p →
      p ∈ s.freePorts ∧ p ∉ s.cooldownPorts ∧
      ∃ l1 l2, s.freePorts = l1 ++ p :: l2 ∧ ∀ q ∈ l1, q ∈ s.cooldownPorts) ∧
    (getAvailablePort s = none ↔ ∀ p ∈ s.freePorts, p ∈ s.cooldownPorts) ∧
    (getAvailablePort s = none →
      (startContainer s jobId cid tok now execOk).1 = none) := by
  refine ⟨?_, ?_, ?_⟩
  · intro p hp
    unfold getAvailablePort at hp
    have hmem : p ∈ s.freePorts := List.mem_of_find?_eq_some hp
    have hpred := List.find?_some hp
    refine ⟨hmem, of_decide_eq_true hpred, ?_⟩
    obtain ⟨l1, l2, heq, hall⟩ := find?_prefix hp
    refine ⟨l1, l2, heq, fun q hq => ?_⟩
    have := hall q hq
    simpa using this
  · rw [getAvailablePort, List.find?_eq_none]
    constructor
    · intro h p hp
      have := h p hp
      simpa using this
    · intro h p hp
      simpa using h p hp
  · intro h
    simp [startContainer, h]

/-- Witness for C8 (amended): on the freshly initialised pool the selected
port is the head of the range, and its prefix (empty) is in cooldown. -/
theorem getAvailablePort_first_fit_witness :
    getAvailablePort (initPool 19001 19010) = some 19001 ∧
    (19001 ∈ (initPool 19001 19010).freePorts ∧
     19001 ∉ (initPool 19001 19010).cooldownPorts ∧
     ∃ l1 l2, (initPool 19001 19010).freePorts = l1 ++ 19001 :: l2 ∧
       ∀ q ∈ l1, q ∈ (initPool 19001 19010).cooldownPorts) :=
  ⟨by decide,
    (getAvailablePort_first_fit (initPool 19001 19010) "j" "c" "t" 0 true).1
      19001 (by decide)⟩

/-! ## C1, C6: proxy authentication, revocation and rate limiting -/

/-- A proxy state with one registered token, used by concrete witnesses. -/
def proxyStEx : ProxyState :=
  { validTokens := [("t1", ⟨"job-0001", 0⟩)]
    requestCounts := [("t1", ⟨3, 0⟩)] }

/-- C1: a non-`OPTIONS` request whose URL is not `/health` and whose bearer
token is missing or not in `validTokens` is answered 401 with no state
change (hence nothing is forwarded upstream); and `revokeToken t` removes
both the `validTokens` and the `requestCounts` entry for `t`, so a later
request bearing `t` is answered 401 as well. -/
theorem proxy_unknown_token_rejected_and_revocation
    (st : ProxyState) (m u : String) (auth auth' : Option String)
    (now now' limit : Nat) (t : String)
    (hm : m ≠ "OPTIONS") (hu : u ≠ "/health")
    (hunknown : (extractToken auth).all
      (fun tk => (mapLookup st.validTokens tk).isNone) = true)
    (hauth' : extractToken auth' = some t) :
    (handleRequest st ⟨m, u, auth⟩ now limit).1 = .unauthorized401 ∧
    (handleRequest st ⟨m, u, auth⟩ now limit).2 = st ∧
    mapLookup (revokeToken st t).validTokens t = none ∧
    mapLookup (revokeToken st t).requestCounts t = none ∧
    (handleRequest (revokeToken st t) ⟨m, u, auth'⟩ now' limit).1 =
      .unauthorized401 := by
  have hrejected : (handleRequest st ⟨m, u, auth⟩ now limit) =
      (.unauthorized401, st) := by
    rcases hx : extractToken auth with _ | tk
    · simp [handleRequest, hm, hu, hx]
    · have hnone : mapLookup st.validTokens tk = none := by
        rw [hx] at hunknown
        simpa [Option.all_some, Option.isNone_iff_eq_none] using hunknown
      simp [handleRequest, hm, hu, hx, hnone]
  refine ⟨by rw [hrejected], by rw [hrejected],
    mapLookup_mapErase_self _ _, mapLookup_mapErase_self _ _, ?_⟩
  have hnone : mapLookup (revokeToken st t).validTokens t = none :=
    mapLookup_mapErase_self _ _
  simp [handleRequest, hm, hu, hauth', hnone]

/-- Witness for C1 at a concrete registered state: an unknown token is
rejected, and after revoking `t1` a request bearing `t1` is rejected. -/
theorem proxy_unknown_token_rejected_and_revocation_witness :
    (handleRequest proxyStEx ⟨"POST", "/v1/chat/completions", some "Bearer zz"⟩
        5 60).1 = .unauthorized401 ∧
    (handleRequest proxyStEx ⟨"POST", "/v1/chat/completions", some "Bearer zz"⟩
        5 60).2 = proxyStEx ∧
    mapLookup (revokeToken proxyStEx "t1").validTokens "t1" = none ∧
    mapLookup (revokeToken proxyStEx "t1").requestCounts "t1" = none ∧
    (handleRequest (revokeToken proxyStEx "t1")
        ⟨"POST", "/v1/chat/completions", some "Bearer t1"⟩ 6 60).1 =
      .unauthorized401 :=
  proxy_unknown_token_rejected_and_revocation proxyStEx
    "POST" "/v1/chat/completions" (some "Bearer zz") (some "Bearer t1")
    5 6 60 "t1" (by decide) (by decide) (by decide) (by decide)

/-- C6 counterexample: the window is fixed, not sliding.  With
`proxyRateLimit = 2` and authenticated requests at `t = 0, 59999, 60001,
60002` ms, the request at `t = 60002` has two earlier authenticated
requests inside its preceding 60-second window (at 59999 and 60001), so
the claimed sliding limit would reject it with 429 — yet the proxy
forwards all four requests (the anchored window was reset at `t = 60001`). -/
theorem proxy_rate_limit_not_sliding :
    (procTrace 2 ⟨[("t1", ⟨"job-0001", 0⟩)], []⟩
      [(0, ⟨"POST", "/v1/x", some "Bearer t1"⟩),
       (59999, ⟨"POST", "/v1/x", some "Bearer t1"⟩),
       (60001, ⟨"POST", "/v1/x", some "Bearer t1"⟩),
       (60002, ⟨"POST", "/v1/x", some "Bearer t1"⟩)]).1 =
      [.forward .nvidia, .forward .nvidia, .forward .nvidia, .forward .nvidia] ∧
    (([0, 59999, 60001].filter (fun ts => 60002 - ts < 60000)).length = 2 ∧
      2 ≥ 2) := by
  decide

/-- C6 as amended: the per-token limit is enforced over a fixed 60-second
window anchored at the window's first request: while the stored window is
current (`now − windowStart ≤ 60000`), a request finding `count ≥ limit`
earlier requests in the window is rejected 429 and not forwarded, and one
finding `count < limit` is forwarded. -/
theorem proxy_rate_limit_fixed_window
    (st : ProxyState) (m u : String) (auth : Option String) (tok : String)
    (now limit : Nat) (e : RateEntry) (info : TokenInfo)
    (hm : m ≠ "OPTIONS") (hu : u ≠ "/health")
    (hauth : extractToken auth = some tok)
    (hreg : mapLookup st.validTokens tok = some info)
    (hcnt : mapLookup st.requestCounts tok = some e)
    (hwin : now - e.windowStart ≤ 60000) :
    (limit ≤ e.count →
      (handleRequest st ⟨m, u, auth⟩ now limit).1 = .rateLimited429) ∧
    (e.count < limit →
      (handleRequest st ⟨m, u, auth⟩ now limit).1 =
        .forward (determineUpstream u)) := by
  have hnotexp : ¬ 60000 < now - e.windowStart := not_lt.mpr hwin
  constructor
  · intro hover
    have hfail : (checkRateLimit st tok now limit).1 = false := by
      simp [checkRateLimit, hcnt, hnotexp, Nat.lt_succ_iff, hover]
    simp [handleRequest, hm, hu, hauth, hreg, hfail]
  · intro hunder
    have hok : (checkRateLimit st tok now limit).1 = true := by
      simp [checkRateLimit, hcnt, hnotexp, Nat.lt_succ_iff, not_lt.mpr hunder]
    simp [handleRequest, hm, hu, hauth, hreg, hok]

/-- Witness for C6 (amended): with `limit = 2` and a current window holding
3 earlier requests, the next request with the registered token is 429. -/
theorem proxy_rate_limit_fixed_window_witness :
    2 ≤ (3 : Nat) ∧
    (handleRequest proxyStEx ⟨"POST", "/v1/x", some "Bearer t1"⟩ 50 2).1 =
      .rateLimited429 :=
  ⟨by decide,
    (proxy_rate_limit_fixed_window proxyStEx "POST" "/v1/x"
        (some "Bearer t1") "t1" 50 2 ⟨3, 0⟩ ⟨"job-0001", 0⟩
        (by decide) (by decide) (by decide) (by decide) (by decide)
        (by decide)).1 (by decide)⟩

/-! ## Rate limiter (rate-limiter module) -/

/-- `canAcceptJob`: prunes timestamps 60 s or older (the JS reassigns the
module variable, so the pruned list is part of the state) and admits while
strictly below `maxAcceptsPerMinute`. -/
def canAcceptJob (acceptTimestamps : List Nat) (now maxAccepts : Nat) :
    Bool × List Nat :=
  let kept := acceptTimestamps.filter (fun ts => now - ts < 60000)
  (kept.length < maxAccepts, kept)

/-- `recordAccept`: push the current time. -/
def recordAccept (acceptTimestamps : List Nat) (now : Nat) : List Nat :=
  acceptTimestamps ++ [now]

/-- `canQueueJob`. -/
def canQueueJob (currentQueueSize maxQueued : Nat) : Bool :=
  currentQueueSize < maxQueued

/-! ## Marketplace client (vap-client): the signed acceptance -/

/-- The fields of `GET /v1/jobs/:id` used by `acceptJob`; `amount` is kept
as its decimal rendering, which is what string concatenation interpolates. -/
structure JobDetail where
  jobHash : String
  buyerVerusId : String
  amount : String
  currency : String

/-- The acceptance message exactly as `acceptJob` concatenates it. -/
def acceptMessage (d : JobDetail) (timestamp : Nat) : String :=
  "VAP-ACCEPT|Job:" ++ d.jobHash ++
    "|Buyer:" ++ d.buyerVerusId ++
    "|Amt:" ++ d.amount ++ " " ++ d.currency ++
    "|Ts:" ++ toString timestamp ++
    "|I accept this job and commit to delivering the work."

/-- What `acceptJob` posts to `/v1/jobs/:id/accept`. -/
structure AcceptPost where
  timestamp : Nat
  signature : String

/-- `acceptJob`'s successful path: `timestamp = Math.floor(Date.now()/1000)`
(the current UNIX second), the message signed with the identity key
(`sign` abstracts `signChallenge(keys.wif, ·, ...)`), and
`{timestamp, signature}` posted. -/
def vapAcceptJob (d : JobDetail) (nowMs : Nat) (sign : String → String) :
    String × AcceptPost :=
  let timestamp := nowMs / 1000
  let message := acceptMessage d timestamp
  (message, ⟨timestamp, sign message⟩)

/-- Modelled from the spec's signed-message format (§6):
`VAP-ACCEPT|Job:<jobHash>|Buyer:<buyerId>|Amt:<amount> <currency>|Ts:<unixSec>|I accept this job and commit to delivering the work.` -/
def specAcceptTemplate (jobHash buyerId amount currency : String)
    (unixSec : Nat) : String :=
  "VAP-ACCEPT|Job:" ++ jobHash ++ "|Buyer:" ++ buyerId ++
    "|Amt:" ++ amount ++ " " ++ currency ++ "|Ts:" ++ toString unixSec ++
    "|I accept this job and commit to delivering the work."

/-- C5: the accepted message is byte-for-byte the spec's template over the
marketplace-supplied fields and the current UNIX second, the signature is
computed over exactly that string, and that second is posted as the
`timestamp` field. -/
theorem accept_message_matches_template (d : JobDetail) (nowMs : Nat)
    (sign : String → String) :
    (vapAcceptJob d nowMs sign).1 =
      specAcceptTemplate d.jobHash d.buyerVerusId d.amount d.currency (nowMs / 1000) ∧
    (vapAcceptJob d nowMs sign).2.signature =
      sign ((vapAcceptJob d nowMs sign).1) ∧
    (vapAcceptJob d nowMs sign).2.timestamp = nowMs / 1000 :=
  ⟨rfl, rfl, rfl⟩

/-! ## Dispatcher core (index.js) -/

/-- An `activeJobs` entry; absent JS fields are `none`. -/
structure JobEntry where
  status : String
  port : Option Nat := none
  containerId : Option String := none
  token : Option String := none
deriving DecidableEq

/-- The dispatcher's module-level state together with the proxy and pool
modules it drives. -/
structure SysState where
  processedJobs : List String
  activeJobs : List (String × JobEntry)
  jobQueue : List String
  acceptTimestamps : List Nat
  ghostTimers : List String
  proxy : ProxyState
  pool : PoolState
deriving DecidableEq

def queuedNotice : String :=
  "Your request is queued. Please wait while I set up your session..."

def busyQueuedNotice : String :=
  "Sorry, all agent slots are currently busy. Your request has been queued."

def startingNotice : String := "Agent is starting up, please wait a moment..."

def notReadyNotice : String := "Agent is not ready yet. Please try again in a moment."

def apologyNotice : String :=
  "Sorry, I encountered an error processing your request. Please try again."

/-- `startGhostTimer`: no-op if a timer is already armed. -/
def ghostAdd (timers : List String) (jobId : String) : List String :=
  if jobId ∈ timers then timers else timers ++ [jobId]

/-- `clearGhostTimer`. -/
def ghostClear (timers : List String) (jobId : String) : List String :=
  timers.erase jobId

/-- `teardownContainer` (index.js:143): clear the ghost timer, log the
`destroying` event (with the log hash), revoke the token at the proxy,
stop/remove the container, log `destroyed`, drop the entry, and process
the queue (recorded here as an action; its job start is a separate,
fire-and-forget `spinUpContainer`). -/
def teardownContainer (st : SysState) (jobId : String) : SysState × List Action :=
  match mapLookup st.activeJobs jobId with
  | none => (st, [])
  | some job =>
    let st1 : SysState := { st with ghostTimers := ghostClear st.ghostTimers jobId }
    let revoked : SysState × List Action :=
      match job.token with
      | some tok =>
        ({ st1 with proxy := revokeToken st1.proxy tok },
          [Action.revokeTokenCall tok])
      | none => (st1, [])
    let stopped : SysState × List Action :=
      match job.port with
      | some p =>
        let d := destroyContainer revoked.1.pool p
        ({ revoked.1 with pool := d.1 }, d.2)
      | none => (revoked.1, [])
    let st2 : SysState :=
      { stopped.1 with activeJobs := mapErase stopped.1.activeJobs jobId }
    (st2,
      Action.logEvent jobId "container.destroying" none ::
        (revoked.2 ++ stopped.2 ++
          [Action.logEvent jobId "container.destroyed" none,
           Action.processQueueCall]))

/-- `spinUpContainer` (index.js:93).  `cid`/`tok` model the Docker-assigned
container id and the freshly generated random token, `execOk` whether
`docker run` succeeded, `healthy` the `waitForHealth` outcome. -/
def spinUpContainer (st : SysState) (jobId cid tok : String) (now : Nat)
    (execOk healthy : Bool) : Bool × SysState × List Action :=
  let st1 : SysState := { st with
    activeJobs := mapSet st.activeJobs jobId ⟨"starting", none, none, none⟩ }
  let a0 := [Action.logEvent jobId "container.starting" none]
  let started := startContainer st1.pool jobId cid tok now execOk
  let st2 : SysState := { st1 with pool := started.2 }
  match started.1 with
  | none => (false, { st2 with activeJobs := mapErase st2.activeJobs jobId }, a0)
  | some r =>
    let st3 : SysState :=
      { st2 with proxy := registerToken st2.proxy r.token jobId now }
    let st4 : SysState := { st3 with
      activeJobs := mapSet st3.activeJobs jobId
        ⟨"starting", some r.port, some r.containerId, some r.token⟩ }
    if healthy then
      let st5 : SysState := { st4 with
        activeJobs := mapSet st4.activeJobs jobId
          ⟨"ready", some r.port, some r.containerId, some r.token⟩ }
      (true,
        { st5 with ghostTimers := ghostAdd st5.ghostTimers jobId },
        a0 ++ [Action.logEvent jobId "container.ready" none])
    else
      let td := teardownContainer st4 jobId
      (false, td.1, a0 ++ td.2)

/-- Outcome of the awaited `sendToContainer` call. -/
inductive SendResult where
  | ok (reply : String)
  | err (msg : String)
deriving DecidableEq

/-- The body of `handleMessage` once the active-job entry is in hand: the
`starting` / non-`ready` notices, or the nonce-tracked round trip (log the
user turn, forward, truncate over 3900 chars, log the assistant turn,
reply; on error log an `error` event with the nonce and apologise). -/
def handleWithJob (st : SysState) (jobId nonce : String) (job : JobEntry)
    (sendRes : SendResult) : SysState × List Action :=
  if job.status = "starting" then (st, [Action.sendChat jobId startingNotice])
  else if job.status ≠ "ready" then (st, [Action.sendChat jobId notReadyNotice])
  else
    match sendRes with
    | .ok reply =>
      let response :=
        if 3900 < reply.length then reply.take 3900 ++ "\n\n[Response truncated]"
        else reply
      (st, [Action.logUser jobId nonce, Action.logAssistant jobId nonce,
            Action.sendChat jobId response])
    | .err _ =>
      (st, [Action.logUser jobId nonce,
            Action.logEvent jobId "error" (some nonce),
            Action.sendChat jobId apologyNotice])

/-- Truthiness of `job && job.status === 'queued'` for the nullable value
bound by `activeJobs.get(jobId)`.  It is tested inside the `if (!job)`
branch (index.js:39), where `job` is null — so there it is identically
false and the queued reply is dead code. -/
def queuedGuard : Option JobEntry → Bool
  | none => false
  | some j => j.status == "queued"

/-- `handleMessage` (index.js:31): clear the ghost timer, look up the
active job, handle the unknown-job path (dead queued check, on-demand
start, busy reply) or dispatch on the entry's status. -/
def handleMessage (st : SysState) (jobId nonce cid tok : String) (now : Nat)
    (execOk healthy : Bool) (sendRes : SendResult) : SysState × List Action :=
  let st0 : SysState := { st with ghostTimers := ghostClear st.ghostTimers jobId }
  match mapLookup st0.activeJobs jobId with
  | none =>
    if queuedGuard (mapLookup st0.activeJobs jobId) then
      (st0, [Action.sendChat jobId queuedNotice])
    else
      let spun := spinUpContainer st0 jobId cid tok now execOk healthy
      if spun.1 then
        match mapLookup spun.2.1.activeJobs jobId with
        | some job =>
          let hw := handleWithJob spun.2.1 jobId nonce job sendRes
          (hw.1, spun.2.2 ++ hw.2)
        | none => (spun.2.1, spun.2.2)
      else
        (spun.2.1, spun.2.2 ++ [Action.sendChat jobId busyQueuedNotice])
  | some job => handleWithJob st0 jobId nonce job sendRes

/-- The `SIGINT` handler (index.js:320): for every active job with a port,
call `containerMgr.destroyContainer(job.port)` directly — no
`apiProxy.revokeToken` — then stop the proxy and exit. -/
def sigintShutdown (st : SysState) : SysState × List Action :=
  let looped := st.activeJobs.foldl
    (fun (acc : SysState × List Action) kv =>
      match kv.2.port with
      | some p =>
        let d := destroyContainer acc.1.pool p
        ({ acc.1 with pool := d.1 }, acc.2 ++ d.2)
      | none => acc)
    (st, [])
  (looped.1, looped.2 ++ [Action.proxyStopCall])

/-- One iteration of the `pollJobs` loop body for one observed job
(index.js:174): seen-set check *then* seen-set insert *then* rate check,
then accept / join / start-or-queue.  `acceptOk` models the marketplace
accept call's success. -/
def pollStep (st : SysState) (jobId : String)
    (now lo hi maxAccepts maxQueued : Nat) (acceptOk : Bool)
    (cid tok : String) (execOk healthy : Bool) : SysState × List Action :=
  if jobId ∈ st.processedJobs then (st, [])
  else
    let st1 : SysState := { st with processedJobs := st.processedJobs ++ [jobId] }
    let can := canAcceptJob st1.acceptTimestamps now maxAccepts
    let st2 : SysState := { st1 with acceptTimestamps := can.2 }
    if !can.1 then (st2, [])
    else if !acceptOk then (st2, [Action.acceptJobCall jobId])
    else
      let st3 : SysState :=
        { st2 with acceptTimestamps := recordAccept st2.acceptTimestamps now }
      let a1 := [Action.acceptJobCall jobId, Action.joinRoom jobId]
      let port? := getPortForJob st3.pool jobId
      if port?.isNone ∧ getActiveContainerCount st3.pool < hi - lo + 1 then
        let spun := spinUpContainer st3 jobId cid tok now execOk healthy
        (spun.2.1, a1 ++ spun.2.2)
      else if port?.isNone then
        if canQueueJob st3.jobQueue.length maxQueued then
          let st4 : SysState := { st3 with
            jobQueue := st3.jobQueue ++ [jobId]
            activeJobs := mapSet st3.activeJobs jobId ⟨"queued", none, none, none⟩ }
          (st4, a1 ++ [Action.sendChat jobId
            ("All agent slots are busy. You are #" ++
              toString st4.jobQueue.length ++ " in queue. Please wait...")])
        else (st3, a1)
      else (st3, a1)

/-! ## C10: `spinUpContainer` is atomic on start failure -/

theorem startContainer_none_state (s : PoolState) (jobId cid tok : String)
    (now : Nat) (execOk : Bool)
    (h : (startContainer s jobId cid tok now execOk).1 = none) :
    (startContainer s jobId cid tok now execOk).2 = s := by
  rcases hav : getAvailablePort s with _ | p
  · simp [startContainer, hav]
  · by_cases he : execOk
    · simp [startContainer, hav, he] at h
    · simp [startContainer, hav, he]

/-- C10: whenever `startContainer` returns null, `spinUpContainer` removes
the provisional `starting` entry again (no `activeJobs` entry remains for
the job), registers no token at the proxy, leaves the pool untouched, and
returns false. -/
theorem spin_up_atomic_on_start_failure
    (st : SysState) (jobId cid tok : String) (now : Nat) (execOk healthy : Bool)
    (hfail : (startContainer st.pool jobId cid tok now execOk).1 = none) :
    (spinUpContainer st jobId cid tok now execOk healthy).1 = false ∧
    mapLookup (spinUpContainer st jobId cid tok now execOk healthy).2.1.activeJobs
      jobId = none ∧
    (spinUpContainer st jobId cid tok now execOk healthy).2.1.proxy = st.proxy ∧
    (spinUpContainer st jobId cid tok now execOk healthy).2.1.pool = st.pool := by
  have hpool := startContainer_none_state st.pool jobId cid tok now execOk hfail
  simp [spinUpContainer, hfail, hpool, mapLookup_mapErase_self]

/-- The idle dispatcher state used by concrete witnesses. -/
def sysStIdle : SysState :=
  { processedJobs := [], activeJobs := [], jobQueue := [], acceptTimestamps := []
    ghostTimers := [], proxy := ⟨[], []⟩, pool := initPool 19001 19010 }

/-- Witness for C10: a failed `docker run` on the idle state. -/
theorem spin_up_atomic_on_start_failure_witness :
    (startContainer sysStIdle.pool "j1" "c1" "t1" 0 false).1 = none ∧
    ((spinUpContainer sysStIdle "j1" "c1" "t1" 0 false true).1 = false ∧
     mapLookup (spinUpContainer sysStIdle "j1" "c1" "t1" 0 false true).2.1.activeJobs
       "j1" = none ∧
     (spinUpContainer sysStIdle "j1" "c1" "t1" 0 false true).2.1.proxy =
       sysStIdle.proxy ∧
     (spinUpContainer sysStIdle "j1" "c1" "t1" 0 false true).2.1.pool =
       sysStIdle.pool) :=
  ⟨by decide,
    spin_up_atomic_on_start_failure sysStIdle "j1" "c1" "t1" 0 false true
      (by decide)⟩

/-! ## C7: sandbox error keeps the container -/

def isDockerStop : Action → Bool
  | .dockerStop _ => true
  | _ => false

/-- C7: a buyer turn for a `ready` job whose `sendToContainer` call fails
logs the user turn, appends an `error` event carrying the turn's nonce,
sends the generic apology — and destroys nothing: the active-job table,
the port pool and the proxy registry are unchanged and no `docker stop`
is issued. -/
theorem sandbox_error_keeps_container
    (st : SysState) (jobId nonce cid tok errMsg : String) (now : Nat)
    (execOk healthy : Bool) (job : JobEntry)
    (hjob : mapLookup st.activeJobs jobId = some job)
    (hready : job.status = "ready") :
    handleMessage st jobId nonce cid tok now execOk healthy (.err errMsg) =
      ({ st with ghostTimers := ghostClear st.ghostTimers jobId },
        [Action.logUser jobId nonce,
         Action.logEvent jobId "error" (some nonce),
         Action.sendChat jobId apologyNotice]) ∧
    (handleMessage st jobId nonce cid tok now execOk healthy
      (.err errMsg)).1.activeJobs = st.activeJobs ∧
    (handleMessage st jobId nonce cid tok now execOk healthy
      (.err errMsg)).1.pool = st.pool ∧
    (handleMessage st jobId nonce cid tok now execOk healthy
      (.err errMsg)).1.proxy = st.proxy ∧
    ((handleMessage st jobId nonce cid tok now execOk healthy
      (.err errMsg)).2.filter isDockerStop) = [] := by
  have hmain : handleMessage st jobId nonce cid tok now execOk healthy
      (.err errMsg) =
      ({ st with ghostTimers := ghostClear st.ghostTimers jobId },
        [Action.logUser jobId nonce,
         Action.logEvent jobId "error" (some nonce),
         Action.sendChat jobId apologyNotice]) := by
    simp [handleMessage, handleWithJob, hjob, hready]
  rw [hmain]
  exact ⟨rfl, rfl, rfl, rfl, rfl⟩

/-- A dispatcher state holding one ready job, for concrete witnesses. -/
def sysStReady : SysState :=
  { processedJobs := ["j1"]
    activeJobs := [("j1", ⟨"ready", some 19001, some "c1", some "t1"⟩)]
    jobQueue := [], acceptTimestamps := [], ghostTimers := ["j1"]
    proxy := ⟨[("t1", ⟨"j1", 0⟩)], []⟩
    pool := { freePorts := [19002], cooldownPorts := []
              usedPorts := [(19001, ⟨"j1", "c1", "ari2-j1", "t1", 0⟩)] } }

/-- Witness for C7: a failing turn on the one-ready-job state. -/
theorem sandbox_error_keeps_container_witness :
    mapLookup sysStReady.activeJobs "j1" =
      some ⟨"ready", some 19001, some "c1", some "t1"⟩ ∧
    (handleMessage sysStReady "j1" "n1" "c" "t" 5 true true
        (.err "HTTP 500")).1.activeJobs = sysStReady.activeJobs ∧
    ((handleMessage sysStReady "j1" "n1" "c" "t" 5 true true
        (.err "HTTP 500")).2.filter isDockerStop) = [] :=
  ⟨by decide,
    (sandbox_error_keeps_container sysStReady "j1" "n1" "c" "t" "HTTP 500" 5
        true true ⟨"ready", some 19001, some "c1", some "t1"⟩
        (by decide) (by decide)).2.1,
    (sandbox_error_keeps_container sysStReady "j1" "n1" "c" "t" "HTTP 500" 5
        true true ⟨"ready", some 19001, some "c1", some "t1"⟩
        (by decide) (by decide)).2.2.2.2⟩

/-! ## C9: a turn for a queued job -/

/-- A dispatcher state holding one queued job. -/
def sysStQueued : SysState :=
  { processedJobs := ["j1"]
    activeJobs := [("j1", ⟨"queued", none, none, none⟩)]
    jobQueue := ["j1"], acceptTimestamps := [], ghostTimers := []
    proxy := ⟨[], []⟩, pool := initPool 19001 19010 }

/-- C9 failing input: a buyer turn for a job whose `activeJobs` entry is
`queued`.  The reply is the not-ready notice, not the queued notice — the
queued reply (index.js:39-42) sits inside the `if (!job)` branch where
`job` is null, so it is unreachable, although its condition holds for the
actual entry — and no container is started (the state is unchanged). -/
theorem queued_turn_gets_not_ready_reply :
    handleMessage sysStQueued "j1" "n1" "c1" "t1" 0 true true (.ok "hi") =
      (sysStQueued, [Action.sendChat "j1" notReadyNotice]) ∧
    notReadyNotice ≠ queuedNotice ∧
    queuedGuard (mapLookup sysStQueued.activeJobs "j1") = true := by decide

/-! ## C4: shutdown stops containers without revoking -/

/-- The dispatcher state of C4's failing input: one in-use container whose
bearer token is registered at the proxy. -/
def sysStC4 : SysState :=
  { processedJobs := ["j1"]
    activeJobs := [("j1", ⟨"ready", some 19001, some "c1", some "t1"⟩)]
    jobQueue := [], acceptTimestamps := [], ghostTimers := ["j1"]
    proxy := ⟨[("t1", ⟨"j1", 0⟩)], [("t1", ⟨2, 0⟩)]⟩
    pool := { freePorts := [19002], cooldownPorts := []
              usedPorts := [(19001, ⟨"j1", "c1", "ari2-j1", "t1", 0⟩)] } }

/-- C4 failing input: on SIGINT the shutdown loop issues the runtime stop
(`docker stop`) with no preceding revocation — the token is still in
`validTokens` afterwards and no `revokeTokenCall` appears in the trace —
whereas `teardownContainer` on the same state revokes strictly before the
stop. -/
theorem sigint_stops_without_revoking :
    (sigintShutdown sysStC4).2 =
      [Action.dockerStop "ari2-j1", Action.proxyStopCall] ∧
    mapLookup (sigintShutdown sysStC4).1.proxy.validTokens "t1" =
      some ⟨"j1", 0⟩ ∧
    (teardownContainer sysStC4 "j1").2 =
      [Action.logEvent "j1" "container.destroying" none,
       Action.revokeTokenCall "t1", Action.dockerStop "ari2-j1",
       Action.logEvent "j1" "container.destroyed" none,
       Action.processQueueCall] ∧
    mapLookup (teardownContainer sysStC4 "j1").1.proxy.validTokens "t1" =
      none := by decide

/-! ## C3: a rate-limited job is never re-examined -/

/-- The dispatcher state of C3's scenario: one acceptance recorded at
`t = 50000` ms, limiter capacity 1. -/
def sysStC3 : SysState :=
  { processedJobs := [], activeJobs := [], jobQueue := []
    acceptTimestamps := [50000], ghostTimers := []
    proxy := ⟨[], []⟩, pool := initPool 19001 19010 }

/-- C3 counterexample: at `t = 60000` the limiter (capacity 1) refuses and
the job is skipped without acceptance — but it is *not* re-examined: at
`t = 200000` the limiter would admit it, yet the second poll observing the
same job leaves the state unchanged and emits nothing (the jobId entered
`processedJobs` before the rate check). -/
theorem rate_limited_job_never_reexamined :
    (pollStep sysStC3 "j1" 60000 19001 19010 1 20 true "c1" "t1" true true).2 =
      [] ∧
    (canAcceptJob
      (pollStep sysStC3 "j1" 60000 19001 19010 1 20 true "c1" "t1" true
        true).1.acceptTimestamps 200000 1).1 = true ∧
    pollStep
      (pollStep sysStC3 "j1" 60000 19001 19010 1 20 true "c1" "t1" true true).1
      "j1" 200000 19001 19010 1 20 true "c1" "t1" true true =
      ((pollStep sysStC3 "j1" 60000 19001 19010 1 20 true "c1" "t1" true
        true).1, []) := by decide

/-- C3 as amended: a job observed while the limiter refuses is skipped
without acceptance, but its id enters the seen-set before the rate check,
so it is considered for admission exactly once: any later poll observing
it leaves the state unchanged and emits nothing. -/
theorem rate_limited_job_skipped_and_seen
    (st : SysState) (jobId : String) (now now' lo hi maxA maxQ : Nat)
    (acceptOk acceptOk' : Bool) (cid tok cid' tok' : String)
    (execOk healthy execOk' healthy' : Bool)
    (hnew : jobId ∉ st.processedJobs)
    (hrefuse : (canAcceptJob st.acceptTimestamps now maxA).1 = false) :
    (pollStep st jobId now lo hi maxA maxQ acceptOk cid tok execOk healthy).2 =
      [] ∧
    (pollStep st jobId now lo hi maxA maxQ acceptOk cid tok execOk
      healthy).1.processedJobs = st.processedJobs ++ [jobId] ∧
    (pollStep st jobId now lo hi maxA maxQ acceptOk cid tok execOk
      healthy).1.activeJobs = st.activeJobs ∧
    pollStep
      (pollStep st jobId now lo hi maxA maxQ acceptOk cid tok execOk healthy).1
      jobId now' lo hi maxA maxQ acceptOk' cid' tok' execOk' healthy' =
      ((pollStep st jobId now lo hi maxA maxQ acceptOk cid tok execOk
        healthy).1, []) := by
  have hres : pollStep st jobId now lo hi maxA maxQ acceptOk cid tok execOk
      healthy =
      ({ st with processedJobs := st.processedJobs ++ [jobId]
                 acceptTimestamps := (canAcceptJob st.acceptTimestamps now maxA).2 },
        []) := by
    simp [pollStep, hnew, hrefuse]
  refine ⟨by rw [hres], by rw [hres], by rw [hres], ?_⟩
  rw [hres]
  have hmem : jobId ∈ st.processedJobs ++ [jobId] := by simp
  simp [pollStep, hmem]

/-- Witness for C3 (amended): the concrete refused poll at `t = 60000`. -/
theorem rate_limited_job_skipped_and_seen_witness :
    ("j1" ∉ sysStC3.processedJobs ∧
      (canAcceptJob sysStC3.acceptTimestamps 60000 1).1 = false) ∧
    ((pollStep sysStC3 "j1" 60000 19001 19010 1 20 true "c1" "t1" true
      true).2 = [] ∧
     (pollStep sysStC3 "j1" 60000 19001 19010 1 20 true "c1" "t1" true
      true).1.processedJobs = sysStC3.processedJobs ++ ["j1"] ∧
     (pollStep sysStC3 "j1" 60000 19001 19010 1 20 true "c1" "t1" true
      true).1.activeJobs = sysStC3.activeJobs ∧
     pollStep
       (pollStep sysStC3 "j1" 60000 19001 19010 1 20 true "c1" "t1" true
        true).1 "j1" 200000 19001 19010 1 20 true "c1" "t1" true true =
       ((pollStep sysStC3 "j1" 60000 19001 19010 1 20 true "c1" "t1" true
        true).1, [])) :=
  ⟨⟨by decide, by decide⟩,
    rate_limited_job_skipped_and_seen sysStC3 "j1" 60000 200000 19001 19010
      1 20 true true "c1" "t1" "c1" "t1" true true true true
      (by decide) (by decide)⟩

end VAP
